import Mathlib

/-!
# Verification of the supercell-wx Level 2 product view core

A shallow embedding of `Level2ProductView::ComputeSweep` and
`Level2ProductView::UpdateColorTable`
(src/scwx-qt/source/scwx/qt/view/level2_product_view.cpp), together
with proofs about the sweep-geometry synthesizer and the color-LUT cache.

Numeric conventions:
* C++ `float` arithmetic is modelled with exact rationals (ℚ).
* Unsigned machine integers are ℕ; a conversion to `uint16_t` is an
  explicit reduction modulo 2^16.
* `std::lroundf` is round-half-away-from-zero, yielding ℤ; converting
  its result to `uint16_t` reduces the integer modulo 2^16.
* C++ signed integer division truncates toward zero (`Int.div`).
-/

namespace Scwx

/-- Round half away from zero, the semantics of C `lroundf`. -/
def lround (q : ℚ) : ℤ :=
  if 0 ≤ q then ⌊q + 1/2⌋ else ⌈q - 1/2⌉

/-- Conversion of a (possibly negative) integer to `uint16_t`:
reduction modulo 2^16, per C++ unsigned conversion rules. -/
def toUInt16 (z : ℤ) : ℕ :=
  (z % 65536).toNat

/-- Modelled from the spec: `common::MAX_RADIALS`, the coordinate
table's total radial slot count at the finest (half-degree) angular
granularity — 720 slots per sweep (§4.1: "720 slots/sweep").  The
constant itself is declared in `scwx/common/constants.hpp`, which is
not part of the sources under analysis. -/
def MAX_RADIALS : ℕ := 720

/-- Modelled from the spec: `common::MAX_DATA_MOMENT_GATES`, the
`MAX_GATES` cap of §4.1 step 3.  Its value is taken as 1840, the
WSR-88D maximum gate count; it is declared in
`scwx/common/constants.hpp`, outside the sources under analysis. -/
def MAX_DATA_MOMENT_GATES : ℕ := 1840

/-- `VERTICES_PER_BIN` from the source. -/
def VERTICES_PER_BIN : ℕ := 6

/-- `VALUES_PER_VERTEX` from the source. -/
def VALUES_PER_VERTEX : ℕ := 2

/-- The Level 2 products handled by the view (`common::Level2Product`).
`Unknown` stands for any product without a `blockTypes_` entry. -/
inductive Level2Product where
  | Reflectivity
  | Velocity
  | SpectrumWidth
  | DifferentialReflectivity
  | DifferentialPhase
  | CorrelationCoefficient
  | ClutterFilterPowerRemoved
  | Unknown
deriving DecidableEq

/-- `wsr88d::rda::DataBlockType`, restricted to the moment types that
appear in `blockTypes_`. -/
inductive DataBlockType where
  | MomentRef
  | MomentVel
  | MomentSw
  | MomentZdr
  | MomentPhi
  | MomentRho
  | MomentCfp
deriving DecidableEq

/-- The `blockTypes_` map: product to data block type; products
without an entry yield `none` (`DataBlockType::Unknown` in the
source). -/
def blockTypes : Level2Product → Option DataBlockType
  | .Reflectivity             => some .MomentRef
  | .Velocity                 => some .MomentVel
  | .SpectrumWidth            => some .MomentSw
  | .DifferentialReflectivity => some .MomentZdr
  | .DifferentialPhase        => some .MomentPhi
  | .CorrelationCoefficient   => some .MomentRho
  | .ClutterFilterPowerRemoved => some .MomentCfp
  | .Unknown                  => none

/-- One moment data block (`wsr88d::rda::MomentDataBlock`): the
per-radial geometry parameters and raw samples for one moment
variable.  Raw samples are listed as natural numbers; reads reduce
them modulo the word size, as the `reinterpret_cast` to a `uint8_t*`
or `uint16_t*` array does in the source. -/
structure MomentData where
  dataWordSize : ℕ
  numberOfDataMomentGates : ℕ
  dataMomentRangeRaw : ℕ
  dataMomentIntervalRaw : ℕ
  scale : ℚ
  offset : ℚ
  snrThresholdRaw : ℤ
  dataMoments : List ℕ

/-- One radial record (`wsr88d::rda::Message31`-backed entry of
`radarData`): azimuth and resolution, the moment block for the
requested product (absent blocks are `none`, a null pointer in the
source), and the volume-block metadata read from radial 0. -/
structure Radial where
  azimuthAngle : ℚ
  azimuthResolutionSpacing : ℤ
  momentData : Option MomentData
  latitude : ℚ
  longitude : ℚ
  modifiedJulianDate : ℕ
  collectionTime : ℕ

/-- A color table (`common::ColorTable`).  Reference identity of the
`shared_ptr` is modelled by the `id` field; `colorFn` is
`ColorTable::Color`, mapping a physical value to an RGBA color
(colors are opaque, modelled as ℕ). -/
structure ColorTable where
  id : ℕ
  valid : Bool
  colorFn : ℚ → ℕ

/-- `common::RadialSize`: which precomputed coordinate table to use. -/
inductive RadialSize where
  | halfDegree
  | oneDegree
deriving DecidableEq

/-- The mutable state of `Level2ProductViewImpl` relevant to sweep
synthesis and the color LUT. -/
structure State where
  product : Level2Product
  vertices : List ℚ
  dataMoments8 : List ℕ
  dataMoments16 : List ℕ
  latitude : ℚ
  longitude : ℚ
  sweepTime : ℕ
  momentDataBlock0 : Option MomentData
  colorTable : Option ColorTable
  colorTableLut : List ℕ
  savedColorTable : Option ℕ
  savedScale : ℚ
  savedOffset : ℚ

/-- The inputs `ComputeSweep` obtains from the radar product manager:
the ordered radial sequence for the requested block type, and the
precomputed coordinate table for each angular resolution.  Modelled
from the spec: the manager (`GetLevel2Data`, `coordinates`) is a
collaborator outside the sources under analysis; the coordinate table
is "a precomputed mapping from (radial index, gate index) to a 2-D
projected coordinate pair" (§2), accessed in the source as a flat
float array, modelled as a total map from flat index to value. -/
structure Input where
  radarData : List Radial
  coordinates : RadialSize → ℕ → ℚ

/-- The display threshold (source lines 300-304):
`uint16_t snrThreshold = lroundf(snr_threshold_raw * scale / 10 + offset)`. -/
def snrThreshold (md : MomentData) : ℕ :=
  toUInt16 (lround ((md.snrThresholdRaw : ℚ) * md.scale / 10 + md.offset))

/-- `radialMultiplier = 2.0f / clamp<int8_t>(spacing, 1, 2)`. -/
def radialMultiplier (spacing : ℤ) : ℚ :=
  2 / ((min (max spacing 1) 2 : ℤ) : ℚ)

/-- Reading sample `i` of a moment block through the reinterpreted
8- or 16-bit array. -/
def readSample (md : MomentData) (i : ℕ) : ℕ :=
  if md.dataWordSize = 8 then md.dataMoments.getD i 0 % 256
  else md.dataMoments.getD i 0 % 65536

/-- The coordinate-table radial slot used for positional index `r`
offset from `startRadial`: `(startRadial + radial) % MAX_RADIALS`. -/
def radialSlot (startRadial r : ℕ) : ℕ :=
  (startRadial + r) % MAX_RADIALS

/-- The radial slot a flat coordinate-table index falls in (each slot
spans `MAX_DATA_MOMENT_GATES` coordinate pairs of two floats). -/
def slotOfIndex (i : ℕ) : ℕ :=
  i / 2 / MAX_DATA_MOMENT_GATES

/-- The geometry and raw values one bin emits (loop body, source
lines 360-455): nothing when the sample is below threshold; at
`gate > 0` a quad split into two triangles (six vertices, twelve
floats) and six copies of the sample; at `gate == 0` a three-vertex
triangle fan starting at the radar origin and three copies of the
sample. -/
def binEmit (coords : ℕ → ℚ) (lat lon : ℚ)
    (thr startRadial r gateSize gate sample : ℕ) : List ℚ × List ℕ :=
  if sample < thr then ([], [])
  else if 0 < gate then
    let baseCoord := gate - 1
    let offset1 := (radialSlot startRadial r * MAX_DATA_MOMENT_GATES + baseCoord) * 2
    let offset2 := offset1 + gateSize * 2
    let offset3 := (radialSlot startRadial (r + 1) * MAX_DATA_MOMENT_GATES + baseCoord) * 2
    let offset4 := offset3 + gateSize * 2
    ([coords offset1, coords (offset1 + 1),
      coords offset2, coords (offset2 + 1),
      coords offset3, coords (offset3 + 1),
      coords offset3, coords (offset3 + 1),
      coords offset4, coords (offset4 + 1),
      coords offset2, coords (offset2 + 1)],
     List.replicate 6 sample)
  else
    let offset1 := (radialSlot startRadial r * MAX_DATA_MOMENT_GATES + gate) * 2
    let offset2 := (radialSlot startRadial (r + 1) * MAX_DATA_MOMENT_GATES + gate) * 2
    ([lat, lon,
      coords offset1, coords (offset1 + 1),
      coords offset2, coords (offset2 + 1)],
     List.replicate 3 sample)

/-- Number of iterations of the gate loop
`for (gate = startGate; gate + gateSize <= endGate; gate += gateSize)`:
with `gateSize > 0` the loop runs `(endGate - startGate) / gateSize`
times (truncated, zero when `endGate ≤ startGate`). -/
def binCount (startGate endGate gateSize : ℕ) : ℕ :=
  (endGate - startGate) / gateSize

/-- `gateSize = max(1, dataMomentInterval / 250)` (source line 335),
the number of base 250-unit gates merged into one rendered bin. -/
def gateSizeOf (md : MomentData) : ℕ :=
  max 1 (md.dataMomentIntervalRaw % 65536 / 250)

/-- `startGate = (dataMomentRange - dataMomentIntervalH) / 250`
(source line 338): the subtraction and division happen in promoted
`int` arithmetic (truncating division), the assignment narrows the
result back to `uint16_t`. -/
def startGateOf (md : MomentData) : ℕ :=
  toUInt16 (Int.tdiv (((md.dataMomentRangeRaw % 65536 : ℕ) : ℤ) -
    ((md.dataMomentIntervalRaw % 65536 / 2 : ℕ) : ℤ)) 250)

/-- `numberOfDataMomentGates = min<uint16_t>(momentData->gates, gates)`
(source lines 339-341); both arguments are narrowed to `uint16_t`. -/
def nGatesOf (md : MomentData) (gates : ℕ) : ℕ :=
  min (md.numberOfDataMomentGates % 65536) (gates % 65536)

/-- `endGate = min<uint16_t>(startGate + n * gateSize, MAX_DATA_MOMENT_GATES)`
(source lines 342-344); the sum is computed in `int` and narrowed to
`uint16_t` at the call. -/
def endGateOf (md : MomentData) (gates : ℕ) : ℕ :=
  min ((startGateOf md + nGatesOf md gates * gateSizeOf md) % 65536)
    MAX_DATA_MOMENT_GATES

/-- Per-radial synthesis (source lines 328-455) for a radial whose
word size matched: gate interval and range arithmetic in C++
integer semantics, then the gate loop emitting one bin per step. -/
def radialEmit (coords : ℕ → ℚ) (lat lon : ℚ)
    (thr startRadial gates r : ℕ) (md : MomentData) : List ℚ × List ℕ :=
  let bins := (List.range
      (binCount (startGateOf md) (endGateOf md gates) (gateSizeOf md))).map
    (fun i => binEmit coords lat lon thr startRadial r (gateSizeOf md)
      (startGateOf md + i * gateSizeOf md) (readSample md i))
  ((bins.map Prod.fst).flatten, (bins.map Prod.snd).flatten)

/-- The radial loop (source lines 316-456), processing radials at
successive positional indices.  Fetching the moment block of a radial
that lacks one dereferences a null pointer in the source; that crash
is modelled by `none`.  A radial whose word size differs from the
first radial's is skipped (emits nothing). -/
def sweepEmit (coords : ℕ → ℚ) (lat lon : ℚ)
    (thr ws0 startRadial gates : ℕ) :
    List Radial → ℕ → Option (List ℚ × List ℕ)
  | [], _ => some ([], [])
  | r :: rs, idx =>
    match r.momentData with
    | none => none
    | some md =>
      match sweepEmit coords lat lon thr ws0 startRadial gates rs (idx + 1) with
      | none => none
      | some (vs, ms) =>
        if md.dataWordSize ≠ ws0 then some (vs, ms)
        else
          let e := radialEmit coords lat lon thr startRadial gates idx md
          some (e.1 ++ vs, e.2 ++ ms)

/-- The per-product LUT domain (`switch (p->product_)`, source lines
180-205): `(rangeMin, rangeMax)`. -/
def productRange : Level2Product → ℕ × ℕ
  | .DifferentialReflectivity => (2, 1058)
  | .DifferentialPhase        => (2, 1023)
  | .ClutterFilterPowerRemoved => (8, 81)
  | _ => (2, 255)

/-- `std::vector::resize` on the LUT: keep the existing prefix,
value-initialize (zero pixel) any new elements. -/
def resizeLut (l : List ℕ) (n : ℕ) : List ℕ :=
  l.take n ++ List.replicate (n - l.length) 0

/-- The LUT rebuild loop (source lines 207-219): resize to
`rangeMax - rangeMin + 1`, then for each `i` in the half-open
`boost::irange(rangeMin, rangeMax)` store
`colorTable.Color((i - offset) / scale)` at `i - rangeMin`.  The
position `rangeMax - rangeMin` is outside the iterated range and
keeps its resize-time content. -/
def buildLut (ct : ColorTable) (scale offset : ℚ)
    (rangeMin rangeMax : ℕ) (oldLut : List ℕ) : List ℕ :=
  let n := rangeMax - rangeMin + 1
  let base := resizeLut oldLut n
  (List.range n).map (fun j =>
    if rangeMin + j < rangeMax then
      ct.colorFn (((rangeMin + j : ℕ) - offset) / scale)
    else base.getD j 0)

/-- `Level2ProductView::UpdateColorTable` (source lines 156-226) as a
state transformer; the boolean reports whether the
`ColorTableUpdated` notification was emitted. -/
def updateColorTable (st : State) : State × Bool :=
  match st.momentDataBlock0, st.colorTable with
  | some md0, some ct =>
    if ct.valid = false then (st, false)
    else
      let offset := md0.offset
      let scale := md0.scale
      if st.savedColorTable = some ct.id ∧ st.savedOffset = offset ∧
          st.savedScale = scale then (st, false)
      else
        let r := productRange st.product
        let lut := buildLut ct scale offset r.1 r.2 st.colorTableLut
        ({ st with
            colorTableLut := lut,
            savedColorTable := some ct.id,
            savedOffset := offset,
            savedScale := scale }, true)
  | _, _ => (st, false)

/-- `Level2ProductView::ComputeSweep` (source lines 228-475) as a
state transformer.  `none` models a crash (null moment block on a
non-first radial); `some` carries the state after the run, including
the trailing `UpdateColorTable` call. -/
def computeSweep (st : State) (input : Input) : Option State :=
  match blockTypes st.product with
  | none => some st
  | some _ =>
    match input.radarData with
    | [] => some st
    | r0 :: _ =>
      let radialSize := if input.radarData.length = 720
        then RadialSize.halfDegree else RadialSize.oneDegree
      let coords := input.coordinates radialSize
      match r0.momentData with
      | none => some { st with momentDataBlock0 := none }
      | some md0 =>
        let st1 := { st with
          momentDataBlock0 := some md0,
          latitude := r0.latitude,
          longitude := r0.longitude,
          sweepTime := r0.modifiedJulianDate * 86400000 + r0.collectionTime }
        let gates := md0.numberOfDataMomentGates
        let thr := snrThreshold md0
        let mult := radialMultiplier r0.azimuthResolutionSpacing
        let startRadial := toUInt16 (lround (r0.azimuthAngle * mult))
        match sweepEmit coords r0.latitude r0.longitude thr
            md0.dataWordSize startRadial gates input.radarData 0 with
        | none => none
        | some (vs, ms) =>
          let st2 := if md0.dataWordSize = 8
            then { st1 with vertices := vs, dataMoments8 := ms,
                            dataMoments16 := [] }
            else { st1 with vertices := vs, dataMoments16 := ms,
                            dataMoments8 := [] }
          some (updateColorTable st2).1

/-! ## Concrete fixtures used to evaluate the embedding -/

/-- A view state as freshly constructed for the reflectivity product:
empty buffers, no color table, nothing saved. -/
def baseState : State :=
  { product := .Reflectivity, vertices := [], dataMoments8 := [],
    dataMoments16 := [], latitude := 0, longitude := 0, sweepTime := 0,
    momentDataBlock0 := none, colorTable := none, colorTableLut := [],
    savedColorTable := none, savedScale := 0, savedOffset := 0 }

/-- A one-gate 8-bit moment block whose threshold computes to 2 and
whose single sample 1 is below it (suppressed). -/
def mdSuppressed : MomentData :=
  { dataWordSize := 8, numberOfDataMomentGates := 1,
    dataMomentRangeRaw := 125, dataMomentIntervalRaw := 250,
    scale := 10, offset := 0, snrThresholdRaw := 2, dataMoments := [1] }

/-- A one-gate 8-bit moment block whose own threshold computes to 10
while its single sample is 5. -/
def mdC1 : MomentData :=
  { dataWordSize := 8, numberOfDataMomentGates := 1,
    dataMomentRangeRaw := 125, dataMomentIntervalRaw := 250,
    scale := 10, offset := 0, snrThresholdRaw := 10, dataMoments := [5] }

/-- First radial for the C1 run: suppressed sample, threshold 2. -/
def rC1a : Radial :=
  { azimuthAngle := 0, azimuthResolutionSpacing := 1,
    momentData := some mdSuppressed, latitude := 100, longitude := 200,
    modifiedJulianDate := 0, collectionTime := 0 }

/-- Second radial for the C1 run: carries `mdC1`. -/
def rC1b : Radial :=
  { azimuthAngle := 0, azimuthResolutionSpacing := 1,
    momentData := some mdC1, latitude := 0, longitude := 0,
    modifiedJulianDate := 0, collectionTime := 0 }

/-- Two-radial input whose second radial's sample (5) sits below that
radial's own threshold (10) but above the first radial's (2). -/
def inC1 : Input :=
  { radarData := [rC1a, rC1b], coordinates := fun _ i => (i : ℚ) }

/-- A color table whose color function is the constant 7. -/
def ctC2 : ColorTable := { id := 1, valid := true, colorFn := fun _ => 7 }

/-- A moment block with scale 1, offset 0 (identity raw-to-physical). -/
def mdC2 : MomentData :=
  { dataWordSize := 8, numberOfDataMomentGates := 0,
    dataMomentRangeRaw := 0, dataMomentIntervalRaw := 0,
    scale := 1, offset := 0, snrThresholdRaw := 0, dataMoments := [] }

/-- A reflectivity view state about to rebuild its LUT from `ctC2`. -/
def stC2 : State :=
  { baseState with momentDataBlock0 := some mdC2, colorTable := some ctC2 }

/-- Scenario-A style single-radial input: azimuth 0, one gate at
`startGate = 0`, sample 5 above threshold 2. -/
def mdC3 : MomentData :=
  { dataWordSize := 8, numberOfDataMomentGates := 1,
    dataMomentRangeRaw := 125, dataMomentIntervalRaw := 250,
    scale := 10, offset := 0, snrThresholdRaw := 2, dataMoments := [5] }

/-- The single radial carrying `mdC3`. -/
def rC3 : Radial :=
  { azimuthAngle := 0, azimuthResolutionSpacing := 1,
    momentData := some mdC3, latitude := 100, longitude := 200,
    modifiedJulianDate := 0, collectionTime := 0 }

/-- Single-radial input for the bounds check. -/
def inC3 : Input :=
  { radarData := [rC3], coordinates := fun _ i => (i : ℚ) }

/-- A 16-bit moment block: its word size mismatches an 8-bit sweep. -/
def mdC5b : MomentData :=
  { dataWordSize := 16, numberOfDataMomentGates := 1,
    dataMomentRangeRaw := 125, dataMomentIntervalRaw := 250,
    scale := 10, offset := 0, snrThresholdRaw := 2, dataMoments := [300] }

/-- An 8-bit moment block with sample 5 above threshold 2. -/
def mdC5c : MomentData :=
  { dataWordSize := 8, numberOfDataMomentGates := 1,
    dataMomentRangeRaw := 125, dataMomentIntervalRaw := 250,
    scale := 10, offset := 0, snrThresholdRaw := 2, dataMoments := [5] }

/-- First radial of the C5 runs (suppressed sample). -/
def rC5a : Radial :=
  { azimuthAngle := 0, azimuthResolutionSpacing := 1,
    momentData := some mdSuppressed, latitude := 100, longitude := 200,
    modifiedJulianDate := 0, collectionTime := 0 }

/-- The word-size-mismatched radial. -/
def rC5b : Radial :=
  { azimuthAngle := 0, azimuthResolutionSpacing := 1,
    momentData := some mdC5b, latitude := 0, longitude := 0,
    modifiedJulianDate := 0, collectionTime := 0 }

/-- The above-threshold 8-bit radial following the mismatch. -/
def rC5c : Radial :=
  { azimuthAngle := 0, azimuthResolutionSpacing := 1,
    momentData := some mdC5c, latitude := 0, longitude := 0,
    modifiedJulianDate := 0, collectionTime := 0 }

/-- Three-radial input: radial 1 has a mismatched word size. -/
def inC5A : Input :=
  { radarData := [rC5a, rC5b, rC5c], coordinates := fun _ i => (i : ℚ) }

/-- The same input with the mismatched radial removed. -/
def inC5B : Input :=
  { radarData := [rC5a, rC5c], coordinates := fun _ i => (i : ℚ) }

/-- A state with non-empty previously published buffers, for checking
that early exits leave them untouched. -/
def stC6 : State :=
  { baseState with
      vertices := [1, 2, 3, 4, 5, 6],
      dataMoments8 := [9, 9, 9] }

/-- An input with no radials at all. -/
def inC6 : Input := { radarData := [], coordinates := fun _ _ => 0 }

/-- First radial of the C7 run: azimuth 359°, whole-degree spacing
(`azimuthResolutionSpacing = 2`), suppressed sample. -/
def rC7a : Radial :=
  { azimuthAngle := 359, azimuthResolutionSpacing := 2,
    momentData := some mdSuppressed, latitude := 100, longitude := 200,
    modifiedJulianDate := 0, collectionTime := 0 }

/-- Second radial of the C7 run: above-threshold sample 9. -/
def rC7b : Radial :=
  { azimuthAngle := 0, azimuthResolutionSpacing := 2,
    momentData := some (
      { dataWordSize := 8, numberOfDataMomentGates := 1,
        dataMomentRangeRaw := 125, dataMomentIntervalRaw := 250,
        scale := 10, offset := 0, snrThresholdRaw := 2,
        dataMoments := [9] } : MomentData),
    latitude := 0, longitude := 0,
    modifiedJulianDate := 0, collectionTime := 0 }

/-- Two-radial whole-degree input starting at azimuth 359°; the
identity coordinate table makes each emitted vertex reveal the flat
index it was looked up at. -/
def inC7 : Input :=
  { radarData := [rC7a, rC7b], coordinates := fun _ i => (i : ℚ) }

/-- A coordinate table that is zero except on radial slot 100. -/
def coordsC7w : ℕ → ℚ := fun i => if slotOfIndex i = 100 then 7 else 0

/-- The all-zero coordinate table. -/
def coordsC7z : ℕ → ℚ := fun _ => 0

/-- A one-gate 8-bit block for the C7 witness. -/
def mdC7w : MomentData :=
  { dataWordSize := 8, numberOfDataMomentGates := 1,
    dataMomentRangeRaw := 125, dataMomentIntervalRaw := 250,
    scale := 10, offset := 0, snrThresholdRaw := 2, dataMoments := [5] }

/-- A valid color table with identity 3. -/
def ctC8 : ColorTable := { id := 3, valid := true, colorFn := fun _ => 1 }

/-- A moment block with scale 2 and offset 5. -/
def mdC8 : MomentData :=
  { dataWordSize := 8, numberOfDataMomentGates := 0,
    dataMomentRangeRaw := 0, dataMomentIntervalRaw := 0,
    scale := 2, offset := 5, snrThresholdRaw := 0, dataMoments := [] }

/-- A state whose saved cache key matches the current
(table identity, scale, offset) triple. -/
def stC8 : State :=
  { baseState with
      momentDataBlock0 := some mdC8,
      colorTable := some ctC8,
      colorTableLut := [4, 4],
      savedColorTable := some 3,
      savedScale := 2,
      savedOffset := 5 }

/-- A moment block whose display threshold computes to the negative
value -100 before the `uint16_t` narrowing. -/
def mdC9 : MomentData :=
  { dataWordSize := 8, numberOfDataMomentGates := 0,
    dataMomentRangeRaw := 0, dataMomentIntervalRaw := 0,
    scale := 10, offset := 0, snrThresholdRaw := -100, dataMoments := [] }

/-- A radial with no moment block for the requested product. -/
def rC10bad : Radial :=
  { azimuthAngle := 0, azimuthResolutionSpacing := 1,
    momentData := none, latitude := 0, longitude := 0,
    modifiedJulianDate := 0, collectionTime := 0 }

/-- Input whose second (non-first) radial lacks its moment block. -/
def inC10 : Input :=
  { radarData := [rC3, rC10bad], coordinates := fun _ i => (i : ℚ) }

/-- A second word-size-mismatched radial with different content. -/
def mdC5b2 : MomentData :=
  { dataWordSize := 16, numberOfDataMomentGates := 1,
    dataMomentRangeRaw := 125, dataMomentIntervalRaw := 250,
    scale := 10, offset := 0, snrThresholdRaw := 2, dataMoments := [7] }

/-- A radial carrying `mdC5b2`. -/
def rC5b2 : Radial :=
  { azimuthAngle := 0, azimuthResolutionSpacing := 1,
    momentData := some mdC5b2, latitude := 0, longitude := 0,
    modifiedJulianDate := 0, collectionTime := 0 }

/-- The state produced by running ComputeSweep on `inC1`. -/
def stC1out : State :=
  { product := .Reflectivity,
    vertices := [100, 200, ((3680 : ℕ) : ℚ), ((3681 : ℕ) : ℚ),
      ((7360 : ℕ) : ℚ), ((7361 : ℕ) : ℚ)],
    dataMoments8 := [5, 5, 5], dataMoments16 := [],
    latitude := 100, longitude := 200, sweepTime := 0,
    momentDataBlock0 := some mdSuppressed, colorTable := none,
    colorTableLut := [], savedColorTable := none,
    savedScale := 0, savedOffset := 0 }

/-- The state produced by running ComputeSweep on `inC3`. -/
def stC3out : State :=
  { product := .Reflectivity,
    vertices := [100, 200, ((0 : ℕ) : ℚ), ((1 : ℕ) : ℚ),
      ((3680 : ℕ) : ℚ), ((3681 : ℕ) : ℚ)],
    dataMoments8 := [5, 5, 5], dataMoments16 := [],
    latitude := 100, longitude := 200, sweepTime := 0,
    momentDataBlock0 := some mdC3, colorTable := none,
    colorTableLut := [], savedColorTable := none,
    savedScale := 0, savedOffset := 0 }

/-- The state produced by running ComputeSweep on `inC5A`: the
emitting radial sits at positional index 2, so its origin bin reads
radial slots 2 and 3 of the coordinate table. -/
def stC5Aout : State :=
  { product := .Reflectivity,
    vertices := [100, 200, ((7360 : ℕ) : ℚ), ((7361 : ℕ) : ℚ),
      ((11040 : ℕ) : ℚ), ((11041 : ℕ) : ℚ)],
    dataMoments8 := [5, 5, 5], dataMoments16 := [],
    latitude := 100, longitude := 200, sweepTime := 0,
    momentDataBlock0 := some mdSuppressed, colorTable := none,
    colorTableLut := [], savedColorTable := none,
    savedScale := 0, savedOffset := 0 }

/-- The state produced by running ComputeSweep on `inC5B`: with the
mismatched radial removed, the emitting radial shifts to positional
index 1 and reads radial slots 1 and 2 instead. -/
def stC5Bout : State :=
  { product := .Reflectivity,
    vertices := [100, 200, ((3680 : ℕ) : ℚ), ((3681 : ℕ) : ℚ),
      ((7360 : ℕ) : ℚ), ((7361 : ℕ) : ℚ)],
    dataMoments8 := [5, 5, 5], dataMoments16 := [],
    latitude := 100, longitude := 200, sweepTime := 0,
    momentDataBlock0 := some mdSuppressed, colorTable := none,
    colorTableLut := [], savedColorTable := none,
    savedScale := 0, savedOffset := 0 }

/-- The state produced by running ComputeSweep on `inC7`: the
second radial (positional index 1) reads radial slots
(359 + 1) % 720 = 360 and 361 — not (359 + 1) % 360 = 0. -/
def stC7out : State :=
  { product := .Reflectivity,
    vertices := [100, 200, ((1324800 : ℕ) : ℚ), ((1324801 : ℕ) : ℚ),
      ((1328480 : ℕ) : ℚ), ((1328481 : ℕ) : ℚ)],
    dataMoments8 := [9, 9, 9], dataMoments16 := [],
    latitude := 100, longitude := 200, sweepTime := 0,
    momentDataBlock0 := some mdSuppressed, colorTable := none,
    colorTableLut := [], savedColorTable := none,
    savedScale := 0, savedOffset := 0 }

/-! ## Supporting lemmas -/

lemma flatten_length_two_mul (ps : List (List ℚ × List ℕ))
    (h : ∀ p ∈ ps, p.1.length = 2 * p.2.length) :
    (ps.map Prod.fst).flatten.length = 2 * (ps.map Prod.snd).flatten.length := by
  induction ps with
  | nil => simp
  | cons p ps ih =>
    simp only [List.map_cons, List.flatten_cons, List.length_append]
    rw [h p (List.mem_cons_self p ps), ih (fun q hq => h q (List.mem_cons_of_mem p hq))]
    ring

lemma flatten_length_le (ps : List (List ℚ × List ℕ)) (b : ℕ)
    (h : ∀ p ∈ ps, p.2.length ≤ b) :
    (ps.map Prod.snd).flatten.length ≤ b * ps.length := by
  induction ps with
  | nil => simp
  | cons p ps ih =>
    simp only [List.map_cons, List.flatten_cons, List.length_append, List.length_cons]
    have h1 := h p (List.mem_cons_self p ps)
    have h2 := ih (fun q hq => h q (List.mem_cons_of_mem p hq))
    calc p.2.length + (ps.map Prod.snd).flatten.length ≤ b + b * ps.length := by omega
    _ = b * (ps.length + 1) := by ring

lemma mem_flatten_snd (ps : List (List ℚ × List ℕ)) (v : ℕ)
    (h : v ∈ (ps.map Prod.snd).flatten) : ∃ p ∈ ps, v ∈ p.2 := by
  induction ps with
  | nil => simp at h
  | cons p ps ih =>
    simp only [List.map_cons, List.flatten_cons, List.mem_append] at h
    rcases h with h | h
    · exact ⟨p, List.mem_cons_self p ps, h⟩
    · obtain ⟨q, hq, hv⟩ := ih h
      exact ⟨q, List.mem_cons_of_mem p hq, hv⟩

lemma binEmit_fst_length (coords : ℕ → ℚ) (lat lon : ℚ)
    (thr startRadial r gateSize gate sample : ℕ) :
    (binEmit coords lat lon thr startRadial r gateSize gate sample).1.length =
      2 * (binEmit coords lat lon thr startRadial r gateSize gate sample).2.length := by
  unfold binEmit
  split
  · simp
  · split <;> simp

lemma binEmit_snd_length_le (coords : ℕ → ℚ) (lat lon : ℚ)
    (thr startRadial r gateSize gate sample : ℕ) :
    (binEmit coords lat lon thr startRadial r gateSize gate sample).2.length ≤ 6 := by
  unfold binEmit
  split
  · simp
  · split <;> simp

lemma binEmit_snd_mem (coords : ℕ → ℚ) (lat lon : ℚ)
    (thr startRadial r gateSize gate sample v : ℕ)
    (h : v ∈ (binEmit coords lat lon thr startRadial r gateSize gate sample).2) :
    thr ≤ v := by
  unfold binEmit at h
  split at h
  · simp at h
  · next hlt =>
    push_neg at hlt
    split at h <;>
      · simp only [List.mem_replicate] at h
        omega

lemma binCount_le (startGate endGate gateSize n : ℕ) (hg : 0 < gateSize)
    (hend : endGate ≤ startGate + n * gateSize) :
    binCount startGate endGate gateSize ≤ n := by
  unfold binCount
  have h1 : endGate - startGate ≤ n * gateSize := by omega
  calc (endGate - startGate) / gateSize ≤ n * gateSize / gateSize :=
        Nat.div_le_div_right h1
  _ = n := Nat.mul_div_cancel n hg

lemma radialEmit_fst_length (coords : ℕ → ℚ) (lat lon : ℚ)
    (thr startRadial gates r : ℕ) (md : MomentData) :
    (radialEmit coords lat lon thr startRadial gates r md).1.length =
      2 * (radialEmit coords lat lon thr startRadial gates r md).2.length := by
  unfold radialEmit
  exact flatten_length_two_mul _ (by
    intro p hp
    simp only [List.mem_map] at hp
    obtain ⟨i, _, hip⟩ := hp
    rw [← hip]
    exact binEmit_fst_length _ _ _ _ _ _ _ _ _)

lemma gateSizeOf_pos (md : MomentData) : 0 < gateSizeOf md :=
  lt_of_lt_of_le Nat.zero_lt_one (le_max_left _ _)

lemma binCount_le_nGates (md : MomentData) (gates : ℕ) :
    binCount (startGateOf md) (endGateOf md gates) (gateSizeOf md) ≤
      nGatesOf md gates := by
  apply binCount_le _ _ _ _ (gateSizeOf_pos md)
  unfold endGateOf
  refine le_trans (min_le_left _ _) (Nat.mod_le _ _)

lemma nGatesOf_le (md : MomentData) (gates : ℕ) : nGatesOf md gates ≤ gates :=
  le_trans (min_le_right _ _) (Nat.mod_le _ _)

lemma radialEmit_snd_length_le (coords : ℕ → ℚ) (lat lon : ℚ)
    (thr startRadial gates r : ℕ) (md : MomentData) :
    (radialEmit coords lat lon thr startRadial gates r md).2.length ≤ 6 * gates := by
  unfold radialEmit
  refine le_trans (flatten_length_le _ 6 ?_) ?_
  · intro p hp
    simp only [List.mem_map] at hp
    obtain ⟨i, _, hip⟩ := hp
    rw [← hip]
    exact binEmit_snd_length_le _ _ _ _ _ _ _ _ _
  · rw [List.length_map, List.length_range]
    have h1 := binCount_le_nGates md gates
    have h2 := nGatesOf_le md gates
    calc 6 * binCount (startGateOf md) (endGateOf md gates) (gateSizeOf md) ≤
          6 * nGatesOf md gates := Nat.mul_le_mul_left 6 h1
    _ ≤ 6 * gates := Nat.mul_le_mul_left 6 h2

lemma radialEmit_snd_mem (coords : ℕ → ℚ) (lat lon : ℚ)
    (thr startRadial gates r v : ℕ) (md : MomentData)
    (h : v ∈ (radialEmit coords lat lon thr startRadial gates r md).2) :
    thr ≤ v := by
  unfold radialEmit at h
  obtain ⟨p, hp, hv⟩ := mem_flatten_snd _ _ h
  simp only [List.mem_map] at hp
  obtain ⟨i, _, hip⟩ := hp
  rw [← hip] at hv
  exact binEmit_snd_mem _ _ _ _ _ _ _ _ _ _ hv

lemma sweepEmit_some_lengths (coords : ℕ → ℚ) (lat lon : ℚ)
    (thr ws0 startRadial gates : ℕ) (rs : List Radial) (idx : ℕ)
    (vs : List ℚ) (ms : List ℕ)
    (h : sweepEmit coords lat lon thr ws0 startRadial gates rs idx = some (vs, ms)) :
    vs.length = 2 * ms.length ∧ ms.length ≤ rs.length * gates * 6 := by
  induction rs generalizing idx vs ms with
  | nil =>
    unfold sweepEmit at h
    simp only [Option.some_inj, Prod.mk.injEq] at h
    obtain ⟨h1, h2⟩ := h
    simp [← h1, ← h2]
  | cons r rs ih =>
    unfold sweepEmit at h
    rcases hr : r.momentData with _ | md
    · rw [hr] at h; exact absurd h (by simp)
    · rw [hr] at h
      rcases hrec : sweepEmit coords lat lon thr ws0 startRadial gates rs (idx + 1) with
        _ | ⟨vs', ms'⟩
      · rw [hrec] at h; exact absurd h (by simp)
      · rw [hrec] at h
        dsimp only at h
        obtain ⟨h1, h2⟩ := ih (idx + 1) vs' ms' hrec
        by_cases hws : md.dataWordSize ≠ ws0
        · rw [if_pos hws] at h
          simp only [Option.some_inj, Prod.mk.injEq] at h
          obtain ⟨hv, hm⟩ := h
          subst hv; subst hm
          constructor
          · exact h1
          · calc ms'.length ≤ rs.length * gates * 6 := h2
            _ ≤ (rs.length + 1) * gates * 6 := by nlinarith
        · rw [if_neg hws] at h
          simp only [Option.some_inj, Prod.mk.injEq] at h
          obtain ⟨hv, hm⟩ := h
          subst hv; subst hm
          constructor
          · rw [List.length_append, List.length_append,
              radialEmit_fst_length, h1]
            ring
          · rw [List.length_append]
            have := radialEmit_snd_length_le coords lat lon thr startRadial gates idx md
            calc (radialEmit coords lat lon thr startRadial gates idx md).2.length +
                  ms'.length ≤ 6 * gates + rs.length * gates * 6 := by omega
            _ = (rs.length + 1) * gates * 6 := by ring

lemma sweepEmit_some_mem (coords : ℕ → ℚ) (lat lon : ℚ)
    (thr ws0 startRadial gates : ℕ) (rs : List Radial) (idx : ℕ)
    (vs : List ℚ) (ms : List ℕ) (v : ℕ)
    (h : sweepEmit coords lat lon thr ws0 startRadial gates rs idx = some (vs, ms))
    (hv : v ∈ ms) : thr ≤ v := by
  induction rs generalizing idx vs ms with
  | nil =>
    unfold sweepEmit at h
    simp only [Option.some_inj, Prod.mk.injEq] at h
    obtain ⟨_, h2⟩ := h
    rw [← h2] at hv
    simp at hv
  | cons r rs ih =>
    unfold sweepEmit at h
    rcases hr : r.momentData with _ | md
    · rw [hr] at h; exact absurd h (by simp)
    · rw [hr] at h
      rcases hrec : sweepEmit coords lat lon thr ws0 startRadial gates rs (idx + 1) with
        _ | ⟨vs', ms'⟩
      · rw [hrec] at h; exact absurd h (by simp)
      · rw [hrec] at h
        dsimp only at h
        by_cases hws : md.dataWordSize ≠ ws0
        · rw [if_pos hws] at h
          simp only [Option.some_inj, Prod.mk.injEq] at h
          obtain ⟨_, hm⟩ := h
          subst hm
          exact ih (idx + 1) vs' ms' hrec hv
        · rw [if_neg hws] at h
          simp only [Option.some_inj, Prod.mk.injEq] at h
          obtain ⟨_, hm⟩ := h
          subst hm
          rcases List.mem_append.mp hv with hv | hv
          · exact radialEmit_snd_mem _ _ _ _ _ _ _ _ _ hv
          · exact ih (idx + 1) vs' ms' hrec hv

lemma updateColorTable_preserves_buffers (st : State) :
    (updateColorTable st).1.vertices = st.vertices ∧
    (updateColorTable st).1.dataMoments8 = st.dataMoments8 ∧
    (updateColorTable st).1.dataMoments16 = st.dataMoments16 := by
  unfold updateColorTable
  rcases st.momentDataBlock0 with _ | md0 <;>
    rcases st.colorTable with _ | ct
  · exact ⟨rfl, rfl, rfl⟩
  · exact ⟨rfl, rfl, rfl⟩
  · exact ⟨rfl, rfl, rfl⟩
  · dsimp only
    split
    · exact ⟨rfl, rfl, rfl⟩
    · split
      · exact ⟨rfl, rfl, rfl⟩
      · exact ⟨rfl, rfl, rfl⟩

lemma computeSweep_cons (st : State) (cf : RadialSize → ℕ → ℚ) (r0 : Radial)
    (rest : List Radial) (md0 : MomentData) (bt : DataBlockType)
    (hbt : blockTypes st.product = some bt)
    (hmd : r0.momentData = some md0) :
    computeSweep st ⟨r0 :: rest, cf⟩ =
      match sweepEmit (cf (if (r0 :: rest).length = 720 then RadialSize.halfDegree
            else RadialSize.oneDegree))
          r0.latitude r0.longitude (snrThreshold md0) md0.dataWordSize
          (toUInt16 (lround (r0.azimuthAngle *
            radialMultiplier r0.azimuthResolutionSpacing)))
          md0.numberOfDataMomentGates (r0 :: rest) 0 with
      | none => none
      | some (vs, ms) =>
        some (updateColorTable (if md0.dataWordSize = 8
          then { st with
                  momentDataBlock0 := some md0,
                  latitude := r0.latitude,
                  longitude := r0.longitude,
                  sweepTime := r0.modifiedJulianDate * 86400000 + r0.collectionTime,
                  vertices := vs,
                  dataMoments8 := ms,
                  dataMoments16 := [] }
          else { st with
                  momentDataBlock0 := some md0,
                  latitude := r0.latitude,
                  longitude := r0.longitude,
                  sweepTime := r0.modifiedJulianDate * 86400000 + r0.collectionTime,
                  vertices := vs,
                  dataMoments16 := ms,
                  dataMoments8 := [] })).1 := by
  unfold computeSweep
  rw [hbt]
  dsimp only
  rw [hmd]

lemma sweepEmit_none_of_missing (coords : ℕ → ℚ) (lat lon : ℚ)
    (thr ws0 startRadial gates : ℕ) (rs : List Radial) :
    ∀ (idx : ℕ) (x : Radial), x ∈ rs → x.momentData = none →
      sweepEmit coords lat lon thr ws0 startRadial gates rs idx = none := by
  induction rs with
  | nil => intro idx x hx; simp at hx
  | cons r rs ih =>
    intro idx x hx hnone
    rcases List.mem_cons.mp hx with h | h
    · unfold sweepEmit
      rw [← h, hnone]
    · unfold sweepEmit
      rcases hr : r.momentData with _ | md
      · rfl
      · rw [ih (idx + 1) x h hnone]

lemma lround_mdSuppressed :
    lround ((mdSuppressed.snrThresholdRaw : ℚ) * mdSuppressed.scale / 10 +
      mdSuppressed.offset) = 2 := by
  unfold mdSuppressed lround
  norm_num

lemma snrThreshold_mdSuppressed : snrThreshold mdSuppressed = 2 := by
  unfold snrThreshold
  rw [lround_mdSuppressed]
  decide

lemma lround_mdC1 :
    lround ((mdC1.snrThresholdRaw : ℚ) * mdC1.scale / 10 + mdC1.offset) = 10 := by
  unfold mdC1 lround
  norm_num

lemma snrThreshold_mdC1 : snrThreshold mdC1 = 10 := by
  unfold snrThreshold
  rw [lround_mdC1]
  decide

lemma lround_mdC3 :
    lround ((mdC3.snrThresholdRaw : ℚ) * mdC3.scale / 10 + mdC3.offset) = 2 := by
  unfold mdC3 lround
  norm_num

lemma snrThreshold_mdC3 : snrThreshold mdC3 = 2 := by
  unfold snrThreshold
  rw [lround_mdC3]
  decide

lemma startRadial_of_azimuth_zero (r : Radial) (h : r.azimuthAngle = 0) :
    toUInt16 (lround (r.azimuthAngle * radialMultiplier r.azimuthResolutionSpacing)) =
      0 := by
  rw [h, zero_mul]
  unfold lround toUInt16
  norm_num

lemma startRadial_rC7a :
    toUInt16 (lround (rC7a.azimuthAngle *
      radialMultiplier rC7a.azimuthResolutionSpacing)) = 359 := by
  have h : lround (rC7a.azimuthAngle *
      radialMultiplier rC7a.azimuthResolutionSpacing) = 359 := by
    unfold rC7a radialMultiplier lround
    norm_num
  rw [h]
  decide

lemma sweepEmit_replace (coords : ℕ → ℚ) (lat lon : ℚ)
    (thr ws0 startRadial gates : ℕ) (r r' : Radial) (mdr mdr' : MomentData)
    (hr : r.momentData = some mdr) (hr' : r'.momentData = some mdr')
    (hws : mdr.dataWordSize ≠ ws0) (hws' : mdr'.dataWordSize ≠ ws0)
    (pre post : List Radial) :
    ∀ idx, sweepEmit coords lat lon thr ws0 startRadial gates
        (pre ++ r :: post) idx =
      sweepEmit coords lat lon thr ws0 startRadial gates
        (pre ++ r' :: post) idx := by
  induction pre with
  | nil =>
    intro idx
    simp only [List.nil_append]
    unfold sweepEmit
    rw [hr, hr']
    dsimp only
    rcases hrec : sweepEmit coords lat lon thr ws0 startRadial gates post (idx + 1)
      with _ | ⟨vs, ms⟩ <;> dsimp only
    rw [if_pos hws, if_pos hws']
  | cons p pre ih =>
    intro idx
    simp only [List.cons_append]
    unfold sweepEmit
    rcases hp : p.momentData with _ | mdp <;> dsimp only
    rw [ih (idx + 1)]

lemma sweepEmit_isSome_of_blocks (coords : ℕ → ℚ) (lat lon : ℚ)
    (thr ws0 startRadial gates : ℕ) (rs : List Radial) :
    ∀ idx, (∀ x ∈ rs, x.momentData.isSome = true) →
      (sweepEmit coords lat lon thr ws0 startRadial gates rs idx).isSome = true := by
  induction rs with
  | nil => intro idx _; rfl
  | cons r rs ih =>
    intro idx h
    unfold sweepEmit
    rcases hr : r.momentData with _ | md
    · have := h r (List.mem_cons_self r rs)
      rw [hr] at this
      simp at this
    · dsimp only
      have htail := ih (idx + 1) (fun x hx => h x (List.mem_cons_of_mem r hx))
      rcases hrec : sweepEmit coords lat lon thr ws0 startRadial gates rs (idx + 1)
        with _ | ⟨vs, ms⟩
      · rw [hrec] at htail
        simp at htail
      · dsimp only
        split <;> rfl

lemma slotOfIndex_linear (s c b : ℕ) (hc : c < 1840) (hb : b < 2) :
    slotOfIndex ((s * 1840 + c) * 2 + b) = s := by
  unfold slotOfIndex MAX_DATA_MOMENT_GATES
  omega

lemma binEmit_coords_congr (coords coords' : ℕ → ℚ) (lat lon : ℚ)
    (thr startRadial r gateSize gate sample : ℕ) (hgs : 0 < gateSize)
    (hgate : gate + gateSize ≤ MAX_DATA_MOMENT_GATES)
    (h : ∀ i, (slotOfIndex i = radialSlot startRadial r ∨
        slotOfIndex i = radialSlot startRadial (r + 1)) → coords i = coords' i) :
    binEmit coords lat lon thr startRadial r gateSize gate sample =
      binEmit coords' lat lon thr startRadial r gateSize gate sample := by
  unfold MAX_DATA_MOMENT_GATES at hgate
  unfold binEmit
  simp only [MAX_DATA_MOMENT_GATES]
  split
  · rfl
  · split
    · next hpos =>
      have hc1 : gate - 1 < 1840 := by omega
      have hc2 : gate - 1 + gateSize < 1840 := by omega
      have e1 := h _ (Or.inl (slotOfIndex_linear (radialSlot startRadial r)
        (gate - 1) 0 hc1 (by omega)))
      have e2 := h _ (Or.inl (slotOfIndex_linear (radialSlot startRadial r)
        (gate - 1) 1 hc1 (by omega)))
      have e3 := h _ (Or.inl (slotOfIndex_linear (radialSlot startRadial r)
        (gate - 1 + gateSize) 0 hc2 (by omega)))
      have e4 := h _ (Or.inl (slotOfIndex_linear (radialSlot startRadial r)
        (gate - 1 + gateSize) 1 hc2 (by omega)))
      have e5 := h _ (Or.inr (slotOfIndex_linear (radialSlot startRadial (r + 1))
        (gate - 1) 0 hc1 (by omega)))
      have e6 := h _ (Or.inr (slotOfIndex_linear (radialSlot startRadial (r + 1))
        (gate - 1) 1 hc1 (by omega)))
      have e7 := h _ (Or.inr (slotOfIndex_linear (radialSlot startRadial (r + 1))
        (gate - 1 + gateSize) 0 hc2 (by omega)))
      have e8 := h _ (Or.inr (slotOfIndex_linear (radialSlot startRadial (r + 1))
        (gate - 1 + gateSize) 1 hc2 (by omega)))
      have g1 : (radialSlot startRadial r * 1840 + (gate - 1)) * 2 + gateSize * 2 =
          (radialSlot startRadial r * 1840 + (gate - 1 + gateSize)) * 2 + 0 := by ring
      have g2 : (radialSlot startRadial r * 1840 + (gate - 1)) * 2 + gateSize * 2 + 1 =
          (radialSlot startRadial r * 1840 + (gate - 1 + gateSize)) * 2 + 1 := by ring
      have g3 : (radialSlot startRadial (r + 1) * 1840 + (gate - 1)) * 2 + gateSize * 2 =
          (radialSlot startRadial (r + 1) * 1840 + (gate - 1 + gateSize)) * 2 + 0 := by
        ring
      have g4 : (radialSlot startRadial (r + 1) * 1840 + (gate - 1)) * 2 + gateSize * 2 +
            1 =
          (radialSlot startRadial (r + 1) * 1840 + (gate - 1 + gateSize)) * 2 + 1 := by
        ring
      have e1' : coords ((radialSlot startRadial r * 1840 + (gate - 1)) * 2) =
          coords' ((radialSlot startRadial r * 1840 + (gate - 1)) * 2) := by
        have := e1
        rw [Nat.add_zero] at this
        exact this
      have e3' : coords ((radialSlot startRadial r * 1840 + (gate - 1)) * 2 +
            gateSize * 2) =
          coords' ((radialSlot startRadial r * 1840 + (gate - 1)) * 2 + gateSize * 2) := by
        rw [g1]
        exact e3
      have e4' : coords ((radialSlot startRadial r * 1840 + (gate - 1)) * 2 +
            gateSize * 2 + 1) =
          coords' ((radialSlot startRadial r * 1840 + (gate - 1)) * 2 + gateSize * 2 +
            1) := by
        rw [g2]
        exact e4
      have e5' : coords ((radialSlot startRadial (r + 1) * 1840 + (gate - 1)) * 2) =
          coords' ((radialSlot startRadial (r + 1) * 1840 + (gate - 1)) * 2) := by
        have := e5
        rw [Nat.add_zero] at this
        exact this
      have e7' : coords ((radialSlot startRadial (r + 1) * 1840 + (gate - 1)) * 2 +
            gateSize * 2) =
          coords' ((radialSlot startRadial (r + 1) * 1840 + (gate - 1)) * 2 +
            gateSize * 2) := by
        rw [g3]
        exact e7
      have e8' : coords ((radialSlot startRadial (r + 1) * 1840 + (gate - 1)) * 2 +
            gateSize * 2 + 1) =
          coords' ((radialSlot startRadial (r + 1) * 1840 + (gate - 1)) * 2 +
            gateSize * 2 + 1) := by
        rw [g4]
        exact e8
      rw [e1', e2, e3', e4', e5', e6, e7', e8']
    · next hzero =>
      have hg0 : gate < 1840 := by omega
      have f1 := h _ (Or.inl (slotOfIndex_linear (radialSlot startRadial r)
        gate 0 hg0 (by omega)))
      have f2 := h _ (Or.inl (slotOfIndex_linear (radialSlot startRadial r)
        gate 1 hg0 (by omega)))
      have f3 := h _ (Or.inr (slotOfIndex_linear (radialSlot startRadial (r + 1))
        gate 0 hg0 (by omega)))
      have f4 := h _ (Or.inr (slotOfIndex_linear (radialSlot startRadial (r + 1))
        gate 1 hg0 (by omega)))
      have f1' : coords ((radialSlot startRadial r * 1840 + gate) * 2) =
          coords' ((radialSlot startRadial r * 1840 + gate) * 2) := by
        have := f1
        rw [Nat.add_zero] at this
        exact this
      have f3' : coords ((radialSlot startRadial (r + 1) * 1840 + gate) * 2) =
          coords' ((radialSlot startRadial (r + 1) * 1840 + gate) * 2) := by
        have := f3
        rw [Nat.add_zero] at this
        exact this
      rw [f1', f2, f3', f4]

lemma listMapCongr {α β : Type} (l : List α) (f g : α → β)
    (h : ∀ a ∈ l, f a = g a) : l.map f = l.map g := by
  induction l with
  | nil => rfl
  | cons a l ih =>
    simp only [List.map_cons]
    rw [h a (List.mem_cons_self a l), ih (fun b hb => h b (List.mem_cons_of_mem a hb))]

lemma computeSweep_inC1_eval : computeSweep baseState inC1 = some stC1out := by
  show computeSweep baseState ⟨rC1a :: [rC1b], fun _ i => (i : ℚ)⟩ = some stC1out
  rw [computeSweep_cons baseState (fun _ i => (i : ℚ)) rC1a [rC1b] mdSuppressed
    DataBlockType.MomentRef rfl rfl, snrThreshold_mdSuppressed,
    startRadial_of_azimuth_zero rC1a rfl]
  rfl

lemma computeSweep_inC3_eval : computeSweep baseState inC3 = some stC3out := by
  show computeSweep baseState ⟨rC3 :: [], fun _ i => (i : ℚ)⟩ = some stC3out
  rw [computeSweep_cons baseState (fun _ i => (i : ℚ)) rC3 [] mdC3
    DataBlockType.MomentRef rfl rfl, snrThreshold_mdC3,
    startRadial_of_azimuth_zero rC3 rfl]
  rfl

lemma computeSweep_inC5A_eval : computeSweep baseState inC5A = some stC5Aout := by
  show computeSweep baseState ⟨rC5a :: [rC5b, rC5c], fun _ i => (i : ℚ)⟩ =
    some stC5Aout
  rw [computeSweep_cons baseState (fun _ i => (i : ℚ)) rC5a [rC5b, rC5c]
    mdSuppressed DataBlockType.MomentRef rfl rfl, snrThreshold_mdSuppressed,
    startRadial_of_azimuth_zero rC5a rfl]
  rfl

lemma computeSweep_inC5B_eval : computeSweep baseState inC5B = some stC5Bout := by
  show computeSweep baseState ⟨rC5a :: [rC5c], fun _ i => (i : ℚ)⟩ = some stC5Bout
  rw [computeSweep_cons baseState (fun _ i => (i : ℚ)) rC5a [rC5c]
    mdSuppressed DataBlockType.MomentRef rfl rfl, snrThreshold_mdSuppressed,
    startRadial_of_azimuth_zero rC5a rfl]
  rfl

lemma computeSweep_inC7_eval : computeSweep baseState inC7 = some stC7out := by
  show computeSweep baseState ⟨rC7a :: [rC7b], fun _ i => (i : ℚ)⟩ = some stC7out
  rw [computeSweep_cons baseState (fun _ i => (i : ℚ)) rC7a [rC7b] mdSuppressed
    DataBlockType.MomentRef rfl rfl, snrThreshold_mdSuppressed, startRadial_rC7a]
  rfl

/-! ## Claim theorems -/

set_option maxRecDepth 10000 in
/-- C2: on a ColorLookupCache miss the LUT is resized to
`rangeMax - rangeMin + 1` entries (254 for a reflectivity-class
product), but the rebuild loop iterates the half-open range
`[rangeMin, rangeMax)`, so the final entry (raw index `rangeMax`) is
never written: after a rebuild from an empty LUT with a constant-7
color function, the last entry still holds the value-initialized 0,
not `colorTable.Color((rangeMax - offset) / scale) = 7`.  This
evaluates the code at the failing input of the claim. -/
theorem C2_lut_last_entry_unwritten :
    (updateColorTable stC2).2 = true ∧
    (updateColorTable stC2).1.colorTableLut.length = 254 ∧
    (updateColorTable stC2).1.colorTableLut.getD 253 99 = 0 ∧
    ctC2.colorFn (((255 : ℚ) - mdC2.offset) / mdC2.scale) = 7 ∧
    (0 : ℕ) ≠ 7 := by
  refine ⟨by decide, by decide, by decide, by decide, by decide⟩

/-- C4: a rendered (above-threshold) bin at gate 0 contributes
exactly 3 vertices (6 floats), the first being the radar origin
`(latitude, longitude)`, and exactly 3 raw-value entries; a rendered
bin at gate > 0 contributes exactly 6 vertices (12 floats) forming a
quad split into two triangles that share two diagonal vertices
(vertex 2 recurs as vertex 5, vertex 1 recurs as vertex 5 of the
second triangle), and exactly 6 raw-value entries, all equal to the
bin's sample. -/
theorem C4_rendered_bin_shape (coords : ℕ → ℚ) (lat lon : ℚ)
    (thr startRadial r gateSize gate sample : ℕ) (h : thr ≤ sample) :
    (gate = 0 →
      (binEmit coords lat lon thr startRadial r gateSize gate sample).1.length = 2 * 3 ∧
      (binEmit coords lat lon thr startRadial r gateSize gate sample).1.getD 0 0 = lat ∧
      (binEmit coords lat lon thr startRadial r gateSize gate sample).1.getD 1 0 = lon ∧
      (binEmit coords lat lon thr startRadial r gateSize gate sample).2 =
        List.replicate 3 sample) ∧
    (0 < gate →
      (binEmit coords lat lon thr startRadial r gateSize gate sample).1.length = 2 * 6 ∧
      (binEmit coords lat lon thr startRadial r gateSize gate sample).1.getD 4 0 =
        (binEmit coords lat lon thr startRadial r gateSize gate sample).1.getD 6 0 ∧
      (binEmit coords lat lon thr startRadial r gateSize gate sample).1.getD 5 0 =
        (binEmit coords lat lon thr startRadial r gateSize gate sample).1.getD 7 0 ∧
      (binEmit coords lat lon thr startRadial r gateSize gate sample).1.getD 2 0 =
        (binEmit coords lat lon thr startRadial r gateSize gate sample).1.getD 10 0 ∧
      (binEmit coords lat lon thr startRadial r gateSize gate sample).1.getD 3 0 =
        (binEmit coords lat lon thr startRadial r gateSize gate sample).1.getD 11 0 ∧
      (binEmit coords lat lon thr startRadial r gateSize gate sample).2 =
        List.replicate 6 sample) := by
  have hns : ¬ sample < thr := not_lt.mpr h
  unfold binEmit
  rw [if_neg hns]
  constructor
  · intro h0
    subst h0
    rw [if_neg (lt_irrefl 0)]
    exact ⟨rfl, rfl, rfl, rfl⟩
  · intro hpos
    rw [if_pos hpos]
    exact ⟨rfl, rfl, rfl, rfl, rfl, rfl⟩

/-- Witness for C4: both bin shapes evaluated at a concrete
above-threshold sample. -/
theorem C4_rendered_bin_shape_witness :
    (binEmit (fun i => (i : ℚ)) 7 8 2 0 0 1 0 5).2 = List.replicate 3 5 ∧
    (binEmit (fun i => (i : ℚ)) 7 8 2 0 0 1 1 5).2 = List.replicate 6 5 :=
  ⟨((C4_rendered_bin_shape (fun i => (i : ℚ)) 7 8 2 0 0 1 0 5 (by decide)).1
      rfl).2.2.2,
   ((C4_rendered_bin_shape (fun i => (i : ℚ)) 7 8 2 0 0 1 1 5 (by decide)).2
      (by decide)).2.2.2.2.2⟩

/-- C6: when the product has no record-block mapping, or the radial
sequence is empty, or the first radial's reference moment block is
absent, ComputeSweep completes without crashing and leaves the
previously published vertex buffer and both raw-value buffers
untouched. -/
theorem C6_early_exit_preserves_buffers (st : State) (input : Input)
    (h : blockTypes st.product = none ∨ input.radarData = [] ∨
      ∃ r0 rest, input.radarData = r0 :: rest ∧ r0.momentData = none) :
    (computeSweep st input).map State.vertices = some st.vertices ∧
    (computeSweep st input).map State.dataMoments8 = some st.dataMoments8 ∧
    (computeSweep st input).map State.dataMoments16 = some st.dataMoments16 := by
  obtain ⟨rd, cf⟩ := input
  rcases h with h | h | ⟨r0, rest, hrd, hmd⟩
  · unfold computeSweep
    rw [h]
    exact ⟨rfl, rfl, rfl⟩
  · have h' : rd = [] := h
    subst h'
    unfold computeSweep
    rcases hbt : blockTypes st.product with _ | bt
    · exact ⟨rfl, rfl, rfl⟩
    · exact ⟨rfl, rfl, rfl⟩
  · have h' : rd = r0 :: rest := hrd
    subst h'
    unfold computeSweep
    rcases hbt : blockTypes st.product with _ | bt
    · exact ⟨rfl, rfl, rfl⟩
    · dsimp only
      rw [hmd]
      exact ⟨rfl, rfl, rfl⟩

/-- Witness for C6: the empty-radials early exit on a state with
non-empty previously published buffers. -/
theorem C6_early_exit_preserves_buffers_witness :
    (computeSweep stC6 inC6).map State.vertices = some stC6.vertices ∧
    (computeSweep stC6 inC6).map State.dataMoments8 = some stC6.dataMoments8 ∧
    (computeSweep stC6 inC6).map State.dataMoments16 = some stC6.dataMoments16 :=
  C6_early_exit_preserves_buffers stC6 inC6 (Or.inr (Or.inl rfl))

/-- C9: the display threshold is narrowed to an unsigned 16-bit
integer.  When the computed value `lround(snrThresholdRaw * scale /
10 + offset)` is negative (and above -65536), the stored threshold
wraps to `t + 65536`, a value near 65536, and every sample below the
wrapped value — in particular every 8-bit sample and every 16-bit
sample below it — emits nothing, instead of all gates being
displayed. -/
theorem C9_negative_threshold_wraps (md : MomentData)
    (hneg : lround ((md.snrThresholdRaw : ℚ) * md.scale / 10 + md.offset) < 0)
    (hlb : -65536 < lround ((md.snrThresholdRaw : ℚ) * md.scale / 10 + md.offset)) :
    snrThreshold md =
      (lround ((md.snrThresholdRaw : ℚ) * md.scale / 10 + md.offset) + 65536).toNat ∧
    ∀ (coords : ℕ → ℚ) (lat lon : ℚ) (startRadial r gateSize gate sample : ℕ),
      sample <
        (lround ((md.snrThresholdRaw : ℚ) * md.scale / 10 + md.offset) + 65536).toNat →
      binEmit coords lat lon (snrThreshold md) startRadial r gateSize gate sample =
        ([], []) := by
  have h1 : snrThreshold md =
      (lround ((md.snrThresholdRaw : ℚ) * md.scale / 10 + md.offset) + 65536).toNat := by
    unfold snrThreshold toUInt16
    omega
  refine ⟨h1, ?_⟩
  intro coords lat lon startRadial r gateSize gate sample hs
  unfold binEmit
  rw [if_pos]
  rw [h1]
  exact hs

/-- Witness for C9: a raw threshold of -100 (scale 10, offset 0)
wraps to 65436 and suppresses the sample 5. -/
theorem C9_negative_threshold_wraps_witness :
    snrThreshold mdC9 = 65436 ∧
    binEmit (fun _ => 0) 0 0 (snrThreshold mdC9) 0 0 1 1 5 = ([], []) := by
  have ht : lround ((mdC9.snrThresholdRaw : ℚ) * mdC9.scale / 10 + mdC9.offset) =
      -100 := by
    unfold mdC9 lround
    norm_num [Int.ceil_eq_iff]
  have h := C9_negative_threshold_wraps mdC9 (by rw [ht]; decide) (by rw [ht]; decide)
  refine ⟨?_, h.2 (fun _ => 0) 0 0 0 0 1 1 5 (by rw [ht]; decide)⟩
  rw [h.1, ht]
  decide

/-- C10: the moment data block is null-checked only on the first
radial; for any later radial lacking its block, the word-size read
dereferences the null pointer and the run crashes (modelled `none`)
instead of following the retain-and-log policy, however the rest of
the input looks. -/
theorem C10_missing_block_on_later_radial_crashes (st : State) (input : Input)
    (r0 rbad : Radial) (pre post : List Radial) (md0 : MomentData)
    (bt : DataBlockType)
    (hbt : blockTypes st.product = some bt)
    (hrd : input.radarData = r0 :: (pre ++ rbad :: post))
    (hmd : r0.momentData = some md0)
    (hbad : rbad.momentData = none) :
    computeSweep st input = none := by
  obtain ⟨rd, cf⟩ := input
  have h' : rd = r0 :: (pre ++ rbad :: post) := hrd
  subst h'
  rw [computeSweep_cons st cf r0 (pre ++ rbad :: post) md0 bt hbt hmd]
  rw [sweepEmit_none_of_missing _ _ _ _ _ _ _ _ 0 rbad
    (List.mem_cons_of_mem r0 (List.mem_append_right pre (List.mem_cons_self rbad post)))
    hbad]

/-- Witness for C10: a two-radial input whose second radial lacks the
reflectivity block makes the whole run crash. -/
theorem C10_missing_block_on_later_radial_crashes_witness :
    computeSweep baseState inC10 = none :=
  C10_missing_block_on_later_radial_crashes baseState inC10 rC3 rC10bad [] []
    mdC3 .MomentRef rfl rfl rfl rfl

/-- C1 counterexample: the claim fails as stated.  The threshold is
not derived per-radial: radial 1 carries scale 10, offset 0,
snrThresholdRaw 10, so its own threshold is 10, yet its raw value 5
is emitted (three copies for the origin bin) because only the FIRST
radial's threshold (2) is ever applied. -/
theorem C1_counterexample :
    (computeSweep baseState inC1).map State.dataMoments8 = some [5, 5, 5] ∧
    5 < snrThreshold mdC1 := by
  constructor
  · rw [computeSweep_inC1_eval]
    rfl
  · rw [snrThreshold_mdC1]
    decide

/-- C1 (amended): for every emitted raw value v, v is at least the
display threshold round(snrThresholdRaw * scale / 10 + offset)
derived once from the FIRST radial's moment block (narrowed to
uint16) and applied to every radial of the sweep. -/
theorem C1_threshold_from_first_radial (st : State) (input : Input) (r0 : Radial)
    (rest : List Radial) (md0 : MomentData) (bt : DataBlockType) (st' : State)
    (hbt : blockTypes st.product = some bt)
    (hrd : input.radarData = r0 :: rest)
    (hmd : r0.momentData = some md0)
    (hcs : computeSweep st input = some st') :
    (∀ v ∈ st'.dataMoments8, snrThreshold md0 ≤ v) ∧
    (∀ v ∈ st'.dataMoments16, snrThreshold md0 ≤ v) := by
  obtain ⟨rd, cf⟩ := input
  have h' : rd = r0 :: rest := hrd
  subst h'
  rw [computeSweep_cons st cf r0 rest md0 bt hbt hmd] at hcs
  split at hcs
  · exact absurd hcs (by simp)
  · next vs ms heq =>
    have hst : (updateColorTable _).1 = st' := Option.some_inj.mp hcs
    subst hst
    by_cases hws : md0.dataWordSize = 8
    · rw [if_pos hws]
      constructor
      · rw [(updateColorTable_preserves_buffers _).2.1]
        intro v hv
        exact sweepEmit_some_mem _ _ _ _ _ _ _ _ _ _ _ _ heq hv
      · rw [(updateColorTable_preserves_buffers _).2.2]
        intro v hv
        simp at hv
    · rw [if_neg hws]
      constructor
      · rw [(updateColorTable_preserves_buffers _).2.1]
        intro v hv
        simp at hv
      · rw [(updateColorTable_preserves_buffers _).2.2]
        intro v hv
        exact sweepEmit_some_mem _ _ _ _ _ _ _ _ _ _ _ _ heq hv

/-- Witness for the amended C1: on the scenario-A run every emitted
raw value (5) is at least the first radial's threshold (2). -/
theorem C1_threshold_from_first_radial_witness : snrThreshold mdC3 ≤ 5 :=
  (C1_threshold_from_first_radial baseState inC3 rC3 [] mdC3 .MomentRef stC3out
    rfl rfl rfl computeSweep_inC3_eval).1 5 (by simp [stC3out])

/-- C3: after every run of ComputeSweep that produces a Sweep, the
vertex buffer length is even and at most radials * gates * 6 * 2,
and the populated raw-value buffer holds exactly one entry per
emitted (x, y) vertex pair. -/
theorem C3_buffer_bounds (st : State) (input : Input) (r0 : Radial)
    (rest : List Radial) (md0 : MomentData) (bt : DataBlockType) (st' : State)
    (hbt : blockTypes st.product = some bt)
    (hrd : input.radarData = r0 :: rest)
    (hmd : r0.momentData = some md0)
    (hcs : computeSweep st input = some st') :
    st'.vertices.length % 2 = 0 ∧
    st'.vertices.length ≤
      input.radarData.length * md0.numberOfDataMomentGates * 6 * 2 ∧
    (if md0.dataWordSize = 8 then st'.dataMoments8.length
      else st'.dataMoments16.length) = st'.vertices.length / 2 := by
  obtain ⟨rd, cf⟩ := input
  have h' : rd = r0 :: rest := hrd
  subst h'
  rw [computeSweep_cons st cf r0 rest md0 bt hbt hmd] at hcs
  split at hcs
  · exact absurd hcs (by simp)
  · next vs ms heq =>
    obtain ⟨h2, hle⟩ := sweepEmit_some_lengths _ _ _ _ _ _ _ _ _ _ _ heq
    have hst : (updateColorTable _).1 = st' := Option.some_inj.mp hcs
    subst hst
    have hbound : vs.length ≤
        (r0 :: rest).length * md0.numberOfDataMomentGates * 6 * 2 := by
      calc vs.length = 2 * ms.length := h2
      _ ≤ 2 * ((r0 :: rest).length * md0.numberOfDataMomentGates * 6) :=
        Nat.mul_le_mul_left 2 hle
      _ = (r0 :: rest).length * md0.numberOfDataMomentGates * 6 * 2 := by ring
    by_cases hws : md0.dataWordSize = 8
    · rw [if_pos hws, if_pos hws]
      rw [(updateColorTable_preserves_buffers _).1,
        (updateColorTable_preserves_buffers _).2.1]
      dsimp only
      refine ⟨by omega, hbound, by omega⟩
    · rw [if_neg hws, if_neg hws]
      rw [(updateColorTable_preserves_buffers _).1,
        (updateColorTable_preserves_buffers _).2.2]
      dsimp only
      refine ⟨by omega, hbound, by omega⟩

/-- Witness for C3 on the scenario-A run: six vertex floats (even,
within the bound 1 * 1 * 6 * 2) and three raw values. -/
theorem C3_buffer_bounds_witness :
    stC3out.vertices.length % 2 = 0 ∧
    stC3out.vertices.length ≤
      inC3.radarData.length * mdC3.numberOfDataMomentGates * 6 * 2 ∧
    (if mdC3.dataWordSize = 8 then stC3out.dataMoments8.length
      else stC3out.dataMoments16.length) = stC3out.vertices.length / 2 :=
  C3_buffer_bounds baseState inC3 rC3 [] mdC3 .MomentRef stC3out
    rfl rfl rfl computeSweep_inC3_eval

/-- C5 counterexample: the claim fails as stated.  Removing the
word-size-mismatched radial shifts every later radial's positional
index, changing its coordinate-table lookups: on the three-radial
input the emitting radial reads slots 2 and 3, but with the
mismatched radial removed it reads slots 1 and 2, so the geometry
differs even though the raw values agree. -/
theorem C5_counterexample :
    (computeSweep baseState inC5A).map State.vertices ≠
      (computeSweep baseState inC5B).map State.vertices ∧
    (computeSweep baseState inC5A).map State.dataMoments8 =
      (computeSweep baseState inC5B).map State.dataMoments8 := by
  rw [computeSweep_inC5A_eval, computeSweep_inC5B_eval]
  constructor
  · intro hcontra
    have h3 : ((7360 : ℕ) : ℚ) = ((3680 : ℕ) : ℚ) :=
      congrArg (fun o : Option (List ℚ) => (o.getD []).getD 2 0) hcontra
    have h4 : (7360 : ℕ) = 3680 := Nat.cast_injective h3
    exact absurd h4 (by decide)
  · rfl

/-- C5 (amended): a radial whose word size differs from the first
radial's emits zero vertices and zero raw values, and the rest of the
output — each remaining radial evaluated at its ORIGINAL positional
index — does not depend on the mismatched radial at all: replacing it
by any other mismatched radial leaves the result unchanged, and the
sweep still synthesizes. -/
theorem C5_word_size_isolation (st : State) (cf : RadialSize → ℕ → ℚ)
    (r0 r r' : Radial) (pre post : List Radial) (md0 mdr mdr' : MomentData)
    (bt : DataBlockType)
    (hbt : blockTypes st.product = some bt)
    (hmd0 : r0.momentData = some md0)
    (hr : r.momentData = some mdr) (hr' : r'.momentData = some mdr')
    (hws : mdr.dataWordSize ≠ md0.dataWordSize)
    (hws' : mdr'.dataWordSize ≠ md0.dataWordSize)
    (hblocks : ∀ x ∈ r0 :: (pre ++ r :: post), x.momentData.isSome = true) :
    computeSweep st ⟨r0 :: (pre ++ r :: post), cf⟩ =
      computeSweep st ⟨r0 :: (pre ++ r' :: post), cf⟩ ∧
    (computeSweep st ⟨r0 :: (pre ++ r :: post), cf⟩).isSome = true := by
  have hlen : (r0 :: (pre ++ r :: post)).length =
      (r0 :: (pre ++ r' :: post)).length := by simp
  constructor
  · rw [computeSweep_cons st cf r0 (pre ++ r :: post) md0 bt hbt hmd0,
        computeSweep_cons st cf r0 (pre ++ r' :: post) md0 bt hbt hmd0, hlen]
    rw [show sweepEmit (cf (if (r0 :: (pre ++ r' :: post)).length = 720
          then RadialSize.halfDegree else RadialSize.oneDegree))
        r0.latitude r0.longitude (snrThreshold md0) md0.dataWordSize
        (toUInt16 (lround (r0.azimuthAngle *
          radialMultiplier r0.azimuthResolutionSpacing)))
        md0.numberOfDataMomentGates (r0 :: (pre ++ r :: post)) 0 =
      sweepEmit (cf (if (r0 :: (pre ++ r' :: post)).length = 720
          then RadialSize.halfDegree else RadialSize.oneDegree))
        r0.latitude r0.longitude (snrThreshold md0) md0.dataWordSize
        (toUInt16 (lround (r0.azimuthAngle *
          radialMultiplier r0.azimuthResolutionSpacing)))
        md0.numberOfDataMomentGates (r0 :: (pre ++ r' :: post)) 0 from
      sweepEmit_replace _ _ _ _ _ _ _ r r' mdr mdr' hr hr' hws hws'
        (r0 :: pre) post 0]
  · rw [computeSweep_cons st cf r0 (pre ++ r :: post) md0 bt hbt hmd0]
    rcases hsw : sweepEmit (cf (if (r0 :: (pre ++ r :: post)).length = 720
          then RadialSize.halfDegree else RadialSize.oneDegree))
        r0.latitude r0.longitude (snrThreshold md0) md0.dataWordSize
        (toUInt16 (lround (r0.azimuthAngle *
          radialMultiplier r0.azimuthResolutionSpacing)))
        md0.numberOfDataMomentGates (r0 :: (pre ++ r :: post)) 0
      with _ | ⟨vs, ms⟩
    · have hs := sweepEmit_isSome_of_blocks
        (cf (if (r0 :: (pre ++ r :: post)).length = 720
          then RadialSize.halfDegree else RadialSize.oneDegree))
        r0.latitude r0.longitude (snrThreshold md0) md0.dataWordSize
        (toUInt16 (lround (r0.azimuthAngle *
          radialMultiplier r0.azimuthResolutionSpacing)))
        md0.numberOfDataMomentGates (r0 :: (pre ++ r :: post)) 0 hblocks
      rw [hsw] at hs
      simp at hs
    · rfl

/-- Witness for the amended C5: replacing the 16-bit radial by a
different 16-bit radial leaves the three-radial sweep's output
unchanged, and the run synthesizes. -/
theorem C5_word_size_isolation_witness :
    computeSweep baseState ⟨rC5a :: ([] ++ rC5b :: [rC5c]), fun _ i => (i : ℚ)⟩ =
      computeSweep baseState
        ⟨rC5a :: ([] ++ rC5b2 :: [rC5c]), fun _ i => (i : ℚ)⟩ ∧
    (computeSweep baseState
      ⟨rC5a :: ([] ++ rC5b :: [rC5c]), fun _ i => (i : ℚ)⟩).isSome = true :=
  C5_word_size_isolation baseState (fun _ i => (i : ℚ)) rC5a rC5b rC5b2 []
    [rC5c] mdSuppressed mdC5b mdC5b2 .MomentRef rfl rfl rfl rfl
    (by decide) (by decide) (by decide)

/-- C7 counterexample: the claim fails as stated.  On a whole-degree
sweep starting at azimuth 359°, the radial at positional index 1 is
looked up at coordinate-table radial slots 360 and 361 (visible in
the emitted vertices, since the identity coordinate table echoes flat
indices, and slotOfIndex recovers the slot); the claim's slot
(359 + 1) mod 360 = 0 is not used. -/
theorem C7_counterexample :
    (computeSweep baseState inC7).map State.vertices =
      some [100, 200, ((1324800 : ℕ) : ℚ), ((1324801 : ℕ) : ℚ),
        ((1328480 : ℕ) : ℚ), ((1328481 : ℕ) : ℚ)] ∧
    slotOfIndex 1324800 = 360 ∧ slotOfIndex 1328480 = 361 ∧
    (toUInt16 (lround (rC7a.azimuthAngle *
      radialMultiplier rC7a.azimuthResolutionSpacing)) + 1) % 360 = 0 ∧
    (360 : ℕ) ≠ 0 := by
  refine ⟨?_, by decide, by decide, ?_, by decide⟩
  · rw [computeSweep_inC7_eval]
    rfl
  · rw [startRadial_rC7a]

/-- C7 (amended): every coordinate-table lookup for the radial at
positional index r touches only the radial slots
(startRadial + r) mod 720 and (startRadial + r + 1) mod 720 — the
modulus is the fixed constant MAX_RADIALS = 720 regardless of the
azimuth resolution: two coordinate tables agreeing on those two slots
produce identical per-radial output. -/
theorem C7_lookup_slot_modulus (coords coords' : ℕ → ℚ) (lat lon : ℚ)
    (thr startRadial gates r : ℕ) (md : MomentData)
    (h : ∀ i, (slotOfIndex i = radialSlot startRadial r ∨
        slotOfIndex i = radialSlot startRadial (r + 1)) → coords i = coords' i) :
    radialEmit coords lat lon thr startRadial gates r md =
      radialEmit coords' lat lon thr startRadial gates r md := by
  unfold radialEmit
  have hmap : (List.range (binCount (startGateOf md) (endGateOf md gates)
        (gateSizeOf md))).map
      (fun i => binEmit coords lat lon thr startRadial r (gateSizeOf md)
        (startGateOf md + i * gateSizeOf md) (readSample md i)) =
    (List.range (binCount (startGateOf md) (endGateOf md gates)
        (gateSizeOf md))).map
      (fun i => binEmit coords' lat lon thr startRadial r (gateSizeOf md)
        (startGateOf md + i * gateSizeOf md) (readSample md i)) := by
    apply listMapCongr
    intro i hi
    rw [List.mem_range] at hi
    refine binEmit_coords_congr coords coords' lat lon thr startRadial r
      (gateSizeOf md) (startGateOf md + i * gateSizeOf md) (readSample md i)
      (gateSizeOf_pos md) ?_ h
    have hgs := gateSizeOf_pos md
    have h1 : i + 1 ≤ (endGateOf md gates - startGateOf md) / gateSizeOf md := hi
    have h2 : (i + 1) * gateSizeOf md ≤ endGateOf md gates - startGateOf md :=
      (Nat.le_div_iff_mul_le hgs).mp h1
    have h3 : endGateOf md gates ≤ MAX_DATA_MOMENT_GATES := min_le_right _ _
    rw [Nat.succ_mul] at h2
    omega
  rw [hmap]

/-- Witness for the amended C7: a coordinate table that differs from
the zero table only on slot 100 yields the same per-radial output as
the zero table for a radial whose slots are 5 and 6. -/
theorem C7_lookup_slot_modulus_witness :
    radialEmit coordsC7w 0 0 0 5 1 0 mdC7w =
      radialEmit coordsC7z 0 0 0 5 1 0 mdC7w :=
  C7_lookup_slot_modulus coordsC7w coordsC7z 0 0 0 5 1 0 mdC7w (by
    intro i hi
    rcases hi with h | h
    · show (if slotOfIndex i = 100 then (7 : ℚ) else 0) = 0
      rw [h, if_neg (by decide : ¬ radialSlot 5 0 = 100)]
    · show (if slotOfIndex i = 100 then (7 : ℚ) else 0) = 0
      rw [h, if_neg (by decide : ¬ radialSlot 5 (0 + 1) = 100)])

/-- C8: when the reference identity of the color table, the scale,
and the offset all equal the values saved at the last successful
rebuild, UpdateColorTable leaves the whole state (including the LUT)
unchanged and raises no notification; when any of the three differs
(and the table is present and valid), the LUT is fully rebuilt from
the current table, scale, and offset, the key is re-saved, and the
notification is raised. -/
theorem C8_lut_cache_key (st : State) (md0 : MomentData) (ct : ColorTable)
    (hmd : st.momentDataBlock0 = some md0) (hct : st.colorTable = some ct)
    (hv : ct.valid = true) :
    (st.savedColorTable = some ct.id ∧ st.savedOffset = md0.offset ∧
        st.savedScale = md0.scale →
      updateColorTable st = (st, false)) ∧
    (¬ (st.savedColorTable = some ct.id ∧ st.savedOffset = md0.offset ∧
        st.savedScale = md0.scale) →
      (updateColorTable st).2 = true ∧
      (updateColorTable st).1.colorTableLut =
        buildLut ct md0.scale md0.offset (productRange st.product).1
          (productRange st.product).2 st.colorTableLut ∧
      (updateColorTable st).1.savedColorTable = some ct.id ∧
      (updateColorTable st).1.savedScale = md0.scale ∧
      (updateColorTable st).1.savedOffset = md0.offset) := by
  unfold updateColorTable
  rw [hmd, hct]
  dsimp only
  rw [hv]
  rw [if_neg (by decide : ¬ (true = false))]
  constructor
  · intro hkey
    rw [if_pos hkey]
  · intro hkey
    rw [if_neg hkey]
    exact ⟨rfl, rfl, rfl, rfl, rfl⟩

/-- Witness for C8: a state whose saved (identity, scale, offset)
triple matches the current one is returned unchanged with no
notification. -/
theorem C8_lut_cache_key_witness : updateColorTable stC8 = (stC8, false) :=
  (C8_lut_cache_key stC8 mdC8 ctC8 rfl rfl rfl).1 ⟨rfl, rfl, rfl⟩

end Scwx
